import Mathlib

/-!
Verification of the IXWebSocket core against its natural-language
specification.  The C++ sources are shallowly embedded: pure computations
become Lean functions, the stateful supervisor and transport interactions
become explicit state passing, byte-level I/O becomes functions over the
list of bytes available on the wire, and fallible operations return
`Option`.  Machine bytes are `Nat` values reduced `% 256` where the code
truncates.
-/

set_option maxHeartbeats 1600000

namespace IxWebSocket

/-!
## Reconnection backoff (WebSocket::checkConnection, IXWebSocket.cpp)
-/

/-- Modelled from the spec: `calculateRetryWaitMilliseconds` is declared in
IXExponentialBackoff.h, whose implementation is not among the sources at
hand; the spec defines it as a capped exponential backoff,
`wait = min(min * 2^retries, max)` with retries starting at 0. -/
def calculateRetryWaitMilliseconds (retries minWait maxWait : Nat) : Nat :=
  min (minWait * 2 ^ retries) maxWait

/-- The part of WebSocket::checkConnection's loop state that drives retry
pacing: the local `retries` counter and the `duration` (milliseconds) that
the next loop iteration will sleep before re-attempting to connect. -/
structure CheckConnectionState where
  retries : Nat
  duration : Nat
deriving Repr, DecidableEq

/-- WebSocket::checkConnection enters its loop with `retries = 0` and a zero
`duration`, so no sleep happens before the very first connection attempt. -/
def checkConnectionInit : CheckConnectionState :=
  { retries := 0, duration := 0 }

/-- Effect of one failed connection attempt inside WebSocket::checkConnection
when `_automaticReconnection` is enabled: `duration` becomes
`calculateRetryWaitMilliseconds` of the pre-increment `retries` counter and
the configured minimum and maximum waits, and `retries` is incremented
(the code passes `retries++` together with the configured maximum and
minimum waits to the corresponding parameters of the function). -/
def checkConnectionFail (minWait maxWait : Nat) (s : CheckConnectionState) :
    CheckConnectionState :=
  { retries := s.retries + 1
    duration := calculateRetryWaitMilliseconds s.retries minWait maxWait }

/-- The checkConnection loop state after `n` consecutive failed attempts. -/
def checkConnectionAfterFailures (minWait maxWait : Nat) : Nat → CheckConnectionState
  | 0 => checkConnectionInit
  | n + 1 => checkConnectionFail minWait maxWait (checkConnectionAfterFailures minWait maxWait n)

/-- The sleep (in milliseconds) checkConnection performs before the retry that
follows the k-th failure, k counted from 0: the `duration` computed by that
k-th failure, which the next loop iteration passes to the condition
variable's timed wait. -/
def sleepBeforeRetry (minWait maxWait k : Nat) : Nat :=
  (checkConnectionAfterFailures minWait maxWait (k + 1)).duration

theorem checkConnectionAfterFailures_retries (minWait maxWait n : Nat) :
    (checkConnectionAfterFailures minWait maxWait n).retries = n := by
  induction n with
  | zero => rfl
  | succ n ih => simp [checkConnectionAfterFailures, checkConnectionFail, ih]

/-- C1: in checkConnection's retry loop with automatic reconnection enabled
the sleep before the retry following the k-th failure (k starting at 0)
equals `min(minWait * 2^k, maxWait)` milliseconds; in particular, whenever
the configured minimum does not exceed the configured maximum, the first
wait equals the configured minimum; and the value is exactly
`calculateRetryWaitMilliseconds` applied to the retry count and the
configured minimum and maximum waits. -/
theorem checkConnection_backoff (minWait maxWait k : Nat) (hmm : minWait ≤ maxWait) :
    sleepBeforeRetry minWait maxWait k = min (minWait * 2 ^ k) maxWait ∧
    sleepBeforeRetry minWait maxWait 0 = minWait ∧
    sleepBeforeRetry minWait maxWait k = calculateRetryWaitMilliseconds k minWait maxWait := by
  have hgen : ∀ j, sleepBeforeRetry minWait maxWait j =
      calculateRetryWaitMilliseconds j minWait maxWait := by
    intro j
    show (checkConnectionFail minWait maxWait
      (checkConnectionAfterFailures minWait maxWait j)).duration = _
    simp [checkConnectionFail, checkConnectionAfterFailures_retries]
  refine ⟨?_, ?_, hgen k⟩
  · rw [hgen k]; rfl
  · rw [hgen 0]
    simp [calculateRetryWaitMilliseconds, Nat.min_eq_left hmm]

theorem checkConnection_backoff_witness :
    sleepBeforeRetry 1 10000 3 = min (1 * 2 ^ 3) 10000 ∧
    sleepBeforeRetry 1 10000 0 = 1 ∧
    sleepBeforeRetry 1 10000 3 = calculateRetryWaitMilliseconds 3 1 10000 :=
  checkConnection_backoff 1 10000 3 (by decide)

/-!
## Send path (WebSocket::send*, WebSocket::ping, WebSocket::sendMessage)

The underlying WebSocketTransport `_ws` is an external collaborator of the
embedded file; what it returns for a send and what `bufferedAmount()`
reports afterwards are inputs of the model (`TransportBehavior`).  The
frames handed to it are recorded in a trace.
-/

/-- MDN-style ready states, IXWebSocket.h. -/
inductive ReadyState
  | Connecting
  | Open
  | Closing
  | Closed
deriving Repr, DecidableEq

/-- SendMessageKind, the dispatch tag of WebSocket::sendMessage. -/
inductive SendMessageKind
  | Text
  | Binary
  | Ping
deriving Repr, DecidableEq

/-- WebSocketSendInfo is declared in IXWebSocketSendInfo.h, which is not among
the sources; modelled from its uses in IXWebSocket.cpp, where
`WebSocketSendInfo(false)` (also reached as `return false`) carries
`success == false` and a zero wire size. -/
structure WebSocketSendInfo where
  success : Bool
  wireSize : Nat
deriving Repr, DecidableEq

/-- The value WebSocketSendInfo(false) used on every rejected send. -/
def WebSocketSendInfo.failed : WebSocketSendInfo :=
  { success := false, wireSize := 0 }

/-- One message handed to the WebSocketTransport (a call of the transport's
sendText / sendBinary / sendPing). -/
structure TransportCall where
  kind : SendMessageKind
  payload : List Nat
deriving Repr, DecidableEq

/-- One invocation of the backpressure callback: the current buffered amount
and the is-above-threshold flag passed to it. -/
structure BackpressureEvent where
  bufferedAmount : Nat
  aboveThreshold : Bool
deriving Repr, DecidableEq

/-- Observed behaviour of the transport for one send: the WebSocketSendInfo
its sendText/sendBinary/sendPing returns and what its bufferedAmount()
reports right afterwards. -/
structure TransportBehavior where
  reply : WebSocketSendInfo
  bufferedAmount : Nat
deriving Repr, DecidableEq

/-- The WebSocket supervisor state touched by the send path: ready state
(owned by the transport, read through isConnected), the stats counters, the
backpressure bookkeeping, the trace of frames handed to the transport and
the close requests issued. -/
structure WebSocketState where
  readyState : ReadyState
  messagesSent : Nat
  bytesSent : Nat
  pingsSent : Nat
  backpressureThreshold : Nat
  backpressureActive : Bool
  hasBackpressureCallback : Bool
  transportCalls : List TransportCall
  closesInitiated : List Nat
deriving Repr, DecidableEq

/-- The stats update of WebSocket::sendMessage's switch: messagesSent and
bytesSent for successful text/binary sends, pingsSent for successful
pings. -/
def recordStats (kind : SendMessageKind) (info : WebSocketSendInfo)
    (st : WebSocketState) : WebSocketState :=
  match kind with
  | SendMessageKind.Text =>
    if info.success then
      { st with messagesSent := st.messagesSent + 1, bytesSent := st.bytesSent + info.wireSize }
    else st
  | SendMessageKind.Binary =>
    if info.success then
      { st with messagesSent := st.messagesSent + 1, bytesSent := st.bytesSent + info.wireSize }
    else st
  | SendMessageKind.Ping =>
    if info.success then { st with pingsSent := st.pingsSent + 1 } else st

/-- The backpressure block at the end of WebSocket::sendMessage: when the
threshold is positive, compare the transport's buffered amount with it; on
a change relative to `_backpressureActive`, store the new flag and, if a
callback is registered, invoke it with (current buffered amount, flag). -/
def applyBackpressure (tb : TransportBehavior) (st : WebSocketState) :
    WebSocketState × List BackpressureEvent :=
  if 0 < st.backpressureThreshold then
    let currentBufferSize := tb.bufferedAmount
    let isAbove := decide (st.backpressureThreshold ≤ currentBufferSize)
    if isAbove ≠ st.backpressureActive then
      ({ st with backpressureActive := isAbove },
       if st.hasBackpressureCallback then
         [{ bufferedAmount := currentBufferSize, aboveThreshold := isAbove }]
       else [])
    else (st, [])
  else (st, [])

/-- WebSocket::sendMessage: reject with WebSocketSendInfo(false) unless the
ready state is Open; otherwise hand the message to the transport, update
the stats counters on success, and run the backpressure check.  Returns
the send result, the new state, and the backpressure callback invocations
performed. -/
def sendMessage (message : List Nat) (kind : SendMessageKind)
    (tb : TransportBehavior) (st : WebSocketState) :
    WebSocketSendInfo × WebSocketState × List BackpressureEvent :=
  if st.readyState = ReadyState.Open then
    let info := tb.reply
    let st1 := recordStats kind info
      { st with transportCalls := st.transportCalls ++ [{ kind := kind, payload := message }] }
    let r := applyBackpressure tb st1
    (info, r.1, r.2)
  else (WebSocketSendInfo.failed, st, [])

/-- WebSocket::sendBinary. -/
def sendBinary (data : List Nat) (tb : TransportBehavior) (st : WebSocketState) :
    WebSocketSendInfo × WebSocketState × List BackpressureEvent :=
  sendMessage data SendMessageKind.Binary tb st

/-- WebSocket::sendUtf8Text (no UTF-8 validation, caller's duty). -/
def sendUtf8Text (text : List Nat) (tb : TransportBehavior) (st : WebSocketState) :
    WebSocketSendInfo × WebSocketState × List BackpressureEvent :=
  sendMessage text SendMessageKind.Text tb st

/-- Modelled from the spec: `validateUtf8` (IXUtf8Validator.h, not among the
sources at hand) decides RFC 3629 UTF-8 validity of a byte string, the
notion of "valid UTF-8" the spec requires of text payloads. -/
def validateUtf8 : List Nat → Bool
  | [] => true
  | b :: rest =>
    if b < 0x80 then validateUtf8 rest
    else if b < 0xC2 then false
    else if b < 0xE0 then
      match rest with
      | c1 :: rest1 => decide (0x80 ≤ c1 ∧ c1 < 0xC0) && validateUtf8 rest1
      | [] => false
    else if b < 0xF0 then
      match rest with
      | c1 :: c2 :: rest2 =>
        let lo1 := if b = 0xE0 then 0xA0 else 0x80
        let hi1 := if b = 0xED then 0xA0 else 0xC0
        decide (lo1 ≤ c1 ∧ c1 < hi1) && decide (0x80 ≤ c2 ∧ c2 < 0xC0) && validateUtf8 rest2
      | _ => false
    else if b < 0xF5 then
      match rest with
      | c1 :: c2 :: c3 :: rest3 =>
        let lo1 := if b = 0xF0 then 0x90 else 0x80
        let hi1 := if b = 0xF4 then 0x90 else 0xC0
        decide (lo1 ≤ c1 ∧ c1 < hi1) && decide (0x80 ≤ c2 ∧ c2 < 0xC0) &&
          decide (0x80 ≤ c3 ∧ c3 < 0xC0) && validateUtf8 rest3
      | _ => false
    else false

/-- Modelled from the spec: WebSocketCloseConstants::kInvalidFramePayloadData
(IXWebSocketCloseConstants.h is not among the sources); the spec's close
code table assigns 1007 to invalid UTF-8 / invalid frame payload data. -/
def kInvalidFramePayloadData : Nat := 1007

/-- WebSocket::sendText: reject invalid UTF-8 by initiating a close with
code 1007 and returning WebSocketSendInfo(false); otherwise forward to
sendMessage with kind Text. -/
def sendText (text : List Nat) (tb : TransportBehavior) (st : WebSocketState) :
    WebSocketSendInfo × WebSocketState × List BackpressureEvent :=
  if ¬ validateUtf8 text then
    (WebSocketSendInfo.failed,
     { st with closesInitiated := st.closesInitiated ++ [kInvalidFramePayloadData] }, [])
  else sendMessage text SendMessageKind.Text tb st

/-- WebSocket::ping: reject payloads over 125 bytes with
WebSocketSendInfo(false); otherwise forward to sendMessage with the ping
kind. -/
def ping (text : List Nat) (tb : TransportBehavior) (st : WebSocketState) :
    WebSocketSendInfo × WebSocketState × List BackpressureEvent :=
  if text.length > 125 then (WebSocketSendInfo.failed, st, [])
  else sendMessage text SendMessageKind.Ping tb st

/-- WebSocket::send: text mode unless `binary` is set. -/
def send (data : List Nat) (binary : Bool) (tb : TransportBehavior) (st : WebSocketState) :
    WebSocketSendInfo × WebSocketState × List BackpressureEvent :=
  if binary then sendBinary data tb st else sendText data tb st

/-- A freshly constructed WebSocket before any connection: closed, zero
counters, backpressure off (threshold 0, flag false, no callback), empty
traces — the constructor's defaults in IXWebSocket.cpp. -/
def initialState : WebSocketState :=
  { readyState := ReadyState.Closed
    messagesSent := 0
    bytesSent := 0
    pingsSent := 0
    backpressureThreshold := 0
    backpressureActive := false
    hasBackpressureCallback := false
    transportCalls := []
    closesInitiated := [] }

/-- The same WebSocket once its transport reports Open. -/
def openState : WebSocketState :=
  { initialState with readyState := ReadyState.Open }

/-- An open WebSocket with backpressure threshold 10 and a registered
backpressure callback. -/
def bpState : WebSocketState :=
  { openState with backpressureThreshold := 10, hasBackpressureCallback := true }

theorem recordStats_preserves (kind : SendMessageKind) (info : WebSocketSendInfo)
    (st : WebSocketState) :
    (recordStats kind info st).readyState = st.readyState ∧
    (recordStats kind info st).transportCalls = st.transportCalls ∧
    (recordStats kind info st).backpressureThreshold = st.backpressureThreshold ∧
    (recordStats kind info st).backpressureActive = st.backpressureActive ∧
    (recordStats kind info st).hasBackpressureCallback = st.hasBackpressureCallback ∧
    (recordStats kind info st).closesInitiated = st.closesInitiated := by
  cases kind <;> simp only [recordStats] <;> split <;> simp

theorem applyBackpressure_preserves (tb : TransportBehavior) (st : WebSocketState) :
    (applyBackpressure tb st).1.readyState = st.readyState ∧
    (applyBackpressure tb st).1.transportCalls = st.transportCalls ∧
    (applyBackpressure tb st).1.backpressureThreshold = st.backpressureThreshold ∧
    (applyBackpressure tb st).1.hasBackpressureCallback = st.hasBackpressureCallback ∧
    (applyBackpressure tb st).1.messagesSent = st.messagesSent ∧
    (applyBackpressure tb st).1.bytesSent = st.bytesSent ∧
    (applyBackpressure tb st).1.pingsSent = st.pingsSent ∧
    (applyBackpressure tb st).1.closesInitiated = st.closesInitiated := by
  simp only [applyBackpressure]
  split
  · split <;> simp
  · simp

theorem sendMessage_open_transportCalls (m : List Nat) (k : SendMessageKind)
    (tb : TransportBehavior) (st : WebSocketState) (h : st.readyState = ReadyState.Open) :
    (sendMessage m k tb st).2.1.transportCalls =
      st.transportCalls ++ [{ kind := k, payload := m }] := by
  simp only [sendMessage, if_pos h]
  rw [(applyBackpressure_preserves _ _).2.1, (recordStats_preserves _ _ _).2.1]

theorem sendMessage_not_open (m : List Nat) (k : SendMessageKind)
    (tb : TransportBehavior) (st : WebSocketState) (h : ¬ st.readyState = ReadyState.Open) :
    sendMessage m k tb st = (WebSocketSendInfo.failed, st, []) := by
  simp only [sendMessage, if_neg h]

/-- C6: every control frame sent through WebSocket::ping carries a payload of
at most 125 bytes; for every payload longer than 125 bytes, ping rejects the
request with a WebSocketSendInfo whose success is false, hands no frame to
the transport and leaves the pingsSent counter (indeed the whole state)
unchanged. -/
theorem ping_payload_limit (text : List Nat) (tb : TransportBehavior) (st : WebSocketState)
    (h : 125 < text.length) :
    ping text tb st = (WebSocketSendInfo.failed, st, []) ∧
    (ping text tb st).1.success = false ∧
    (ping text tb st).2.1.transportCalls = st.transportCalls ∧
    (ping text tb st).2.1.pingsSent = st.pingsSent ∧
    (∀ u : List Nat, ∀ tc : TransportBehavior, ∀ su : WebSocketState,
      ∀ c ∈ (ping u tc su).2.1.transportCalls,
        c ∈ su.transportCalls ∨ c.payload.length ≤ 125) := by
  have hrej : ping text tb st = (WebSocketSendInfo.failed, st, []) := by
    simp only [ping, if_pos h]
  refine ⟨hrej, by rw [hrej]; rfl, by rw [hrej], by rw [hrej], ?_⟩
  intro u tc su c hc
  by_cases hl : u.length > 125
  · simp only [ping, if_pos hl] at hc
    exact Or.inl hc
  · simp only [ping, if_neg hl] at hc
    by_cases hopen : su.readyState = ReadyState.Open
    · rw [sendMessage_open_transportCalls _ _ _ _ hopen] at hc
      rcases List.mem_append.mp hc with hmem | hnew
      · exact Or.inl hmem
      · refine Or.inr ?_
        rw [List.mem_singleton.mp hnew]
        exact Nat.le_of_not_lt hl
    · rw [sendMessage_not_open _ _ _ _ hopen] at hc
      exact Or.inl hc

theorem ping_payload_limit_witness :
    ping (List.replicate 126 0) { reply := { success := true, wireSize := 126 }, bufferedAmount := 0 }
        openState = (WebSocketSendInfo.failed, openState, []) :=
  (ping_payload_limit (List.replicate 126 0)
    { reply := { success := true, wireSize := 126 }, bufferedAmount := 0 }
    openState (by simp)).1

/-- C10: while the ready state is not Open, sendMessage — reached by send,
sendBinary, sendUtf8Text, sendText on valid UTF-8, and ping with a payload
of at most 125 bytes — returns WebSocketSendInfo(false) and leaves the
state entirely unchanged: no frame is handed to the transport and the
messagesSent, bytesSent and pingsSent counters keep their values. -/
theorem sendMessage_requires_open (msg : List Nat) (tb : TransportBehavior)
    (st : WebSocketState) (h : st.readyState ≠ ReadyState.Open) :
    (∀ kind, sendMessage msg kind tb st = (WebSocketSendInfo.failed, st, [])) ∧
    sendBinary msg tb st = (WebSocketSendInfo.failed, st, []) ∧
    sendUtf8Text msg tb st = (WebSocketSendInfo.failed, st, []) ∧
    (validateUtf8 msg = true → sendText msg tb st = (WebSocketSendInfo.failed, st, [])) ∧
    (validateUtf8 msg = true →
      ∀ b, send msg b tb st = (WebSocketSendInfo.failed, st, [])) ∧
    (msg.length ≤ 125 → ping msg tb st = (WebSocketSendInfo.failed, st, [])) := by
  have hsm : ∀ kind, sendMessage msg kind tb st = (WebSocketSendInfo.failed, st, []) :=
    fun kind => sendMessage_not_open msg kind tb st h
  have htext : validateUtf8 msg = true →
      sendText msg tb st = (WebSocketSendInfo.failed, st, []) := by
    intro hv
    simp only [sendText, hv, not_true, if_neg, ite_false]
    exact hsm SendMessageKind.Text
  refine ⟨hsm, hsm SendMessageKind.Binary, hsm SendMessageKind.Text, htext, ?_, ?_⟩
  · intro hv b
    cases b
    · simpa only [send, if_neg Bool.false_ne_true] using htext hv
    · exact hsm SendMessageKind.Binary
  · intro hlen
    simp only [ping, Nat.not_lt_of_le hlen, if_neg, ite_false]
    exact hsm SendMessageKind.Ping

theorem sendMessage_requires_open_witness :
    sendBinary [104, 105] { reply := { success := true, wireSize := 2 }, bufferedAmount := 0 }
        initialState = (WebSocketSendInfo.failed, initialState, []) ∧
    sendText [104, 105] { reply := { success := true, wireSize := 2 }, bufferedAmount := 0 }
        initialState = (WebSocketSendInfo.failed, initialState, []) ∧
    ping [104, 105] { reply := { success := true, wireSize := 2 }, bufferedAmount := 0 }
        initialState = (WebSocketSendInfo.failed, initialState, []) := by
  have t := sendMessage_requires_open [104, 105]
    { reply := { success := true, wireSize := 2 }, bufferedAmount := 0 }
    initialState (by decide)
  exact ⟨t.2.1, t.2.2.2.1 (by decide), t.2.2.2.2.2 (by decide)⟩

/-- C5 as stated is false at a concrete input: "hello" is valid UTF-8, yet a
sendText issued while the ready state is Closed hands nothing to the
transport. -/
theorem sendText_valid_utf8_counterexample :
    validateUtf8 [104, 101, 108, 108, 111] = true ∧
    (sendText [104, 101, 108, 108, 111]
      { reply := { success := true, wireSize := 5 }, bufferedAmount := 0 }
      initialState).2.1.transportCalls = [] ∧
    initialState.readyState = ReadyState.Closed := by
  decide

/-- C5 (amended): for every byte string that is not valid UTF-8, sendText
transmits nothing, returns WebSocketSendInfo(false) and initiates a close
with code 1007 (invalid frame payload data); for every valid UTF-8 string,
sendText forwards the message to sendMessage with kind Text, which hands it
to the transport whenever the ready state is Open. -/
theorem sendText_utf8_validation (text : List Nat) (tb : TransportBehavior)
    (st : WebSocketState) :
    (validateUtf8 text = false →
      (sendText text tb st).1 = WebSocketSendInfo.failed ∧
      (sendText text tb st).2.1.transportCalls = st.transportCalls ∧
      (sendText text tb st).2.1.closesInitiated =
        st.closesInitiated ++ [kInvalidFramePayloadData]) ∧
    (validateUtf8 text = true →
      sendText text tb st = sendMessage text SendMessageKind.Text tb st ∧
      (st.readyState = ReadyState.Open →
        (sendText text tb st).2.1.transportCalls =
          st.transportCalls ++ [{ kind := SendMessageKind.Text, payload := text }])) := by
  constructor
  · intro hv
    refine ⟨?_, ?_, ?_⟩ <;> simp [sendText, hv]
  · intro hv
    have heq : sendText text tb st = sendMessage text SendMessageKind.Text tb st := by
      simp only [sendText, hv, not_true, ite_false]
    exact ⟨heq, fun hopen => by
      rw [heq]; exact sendMessage_open_transportCalls _ _ _ _ hopen⟩

theorem sendText_utf8_validation_witness :
    (sendText [255] { reply := { success := true, wireSize := 1 }, bufferedAmount := 0 }
      openState).2.1.closesInitiated = [1007] ∧
    (sendText [104] { reply := { success := true, wireSize := 1 }, bufferedAmount := 0 }
      openState).2.1.transportCalls =
      [{ kind := SendMessageKind.Text, payload := [104] }] := by
  constructor
  · have h := ((sendText_utf8_validation [255]
      { reply := { success := true, wireSize := 1 }, bufferedAmount := 0 }
      openState).1 (by decide)).2.2
    simpa [openState, initialState, kInvalidFramePayloadData] using h
  · have h := ((sendText_utf8_validation [104]
      { reply := { success := true, wireSize := 1 }, bufferedAmount := 0 }
      openState).2 (by decide)).2 (by decide)
    simpa [openState, initialState] using h

/-!
## Backpressure crossings over sequences of sends
-/

/-- One application-side send request together with the transport behaviour
observed for it. -/
structure SendInput where
  message : List Nat
  kind : SendMessageKind
  transport : TransportBehavior
deriving Repr, DecidableEq

/-- A sequence of sendMessage calls: the final state and all backpressure
callback invocations in order. -/
def runSends (st : WebSocketState) : List SendInput → WebSocketState × List BackpressureEvent
  | [] => (st, [])
  | i :: is =>
    let r := sendMessage i.message i.kind i.transport st
    let rest := runSends r.2.1 is
    (rest.1, r.2.2 ++ rest.2)

/-- The booleans alternate, the first one differing from `b`. -/
def alternatingFrom (b : Bool) : List Bool → Bool
  | [] => true
  | x :: xs => (x != b) && alternatingFrom x xs

theorem sendMessage_preserves_config (m : List Nat) (k : SendMessageKind)
    (tb : TransportBehavior) (st : WebSocketState) :
    (sendMessage m k tb st).2.1.backpressureThreshold = st.backpressureThreshold ∧
    (sendMessage m k tb st).2.1.hasBackpressureCallback = st.hasBackpressureCallback ∧
    (sendMessage m k tb st).2.1.readyState = st.readyState := by
  by_cases h : st.readyState = ReadyState.Open
  · simp only [sendMessage, if_pos h]
    refine ⟨?_, ?_, ?_⟩
    · rw [(applyBackpressure_preserves _ _).2.2.1, (recordStats_preserves _ _ _).2.2.1]
    · rw [(applyBackpressure_preserves _ _).2.2.2.1, (recordStats_preserves _ _ _).2.2.2.2.1]
    · rw [(applyBackpressure_preserves _ _).1, (recordStats_preserves _ _ _).1, h]
  · rw [sendMessage_not_open _ _ _ _ h]
    exact ⟨rfl, rfl, rfl⟩

theorem applyBackpressure_step (tb : TransportBehavior) (st : WebSocketState) :
    ((applyBackpressure tb st).2 = [] ∧
      (applyBackpressure tb st).1.backpressureActive = st.backpressureActive) ∨
    (st.hasBackpressureCallback = true ∧
      (applyBackpressure tb st).2 =
        [{ bufferedAmount := tb.bufferedAmount, aboveThreshold := !st.backpressureActive }] ∧
      (applyBackpressure tb st).1.backpressureActive = !st.backpressureActive) ∨
    (st.hasBackpressureCallback = false ∧ (applyBackpressure tb st).2 = []) := by
  simp only [applyBackpressure]
  split
  · set isAbove := decide (st.backpressureThreshold ≤ tb.bufferedAmount) with hdef
    by_cases hne : isAbove = st.backpressureActive
    · left
      rw [if_neg (by simp [hne])]
      exact ⟨rfl, rfl⟩
    · have hflip : isAbove = !st.backpressureActive := by
        cases hA : isAbove <;> cases hB : st.backpressureActive <;> simp_all
      rw [if_pos (by simp [hne])]
      by_cases hcb : st.hasBackpressureCallback = true
      · right; left
        refine ⟨hcb, ?_, by simp [hflip]⟩
        simp [hcb, hflip]
      · right; right
        refine ⟨by simpa using hcb, ?_⟩
        simp [Bool.of_not_eq_true hcb]
  · left
    exact ⟨rfl, rfl⟩

theorem sendMessage_backpressure_step (m : List Nat) (k : SendMessageKind)
    (tb : TransportBehavior) (st : WebSocketState) :
    ((sendMessage m k tb st).2.2 = [] ∧
      (sendMessage m k tb st).2.1.backpressureActive = st.backpressureActive) ∨
    (st.hasBackpressureCallback = true ∧
      (sendMessage m k tb st).2.2 =
        [{ bufferedAmount := tb.bufferedAmount, aboveThreshold := !st.backpressureActive }] ∧
      (sendMessage m k tb st).2.1.backpressureActive = !st.backpressureActive) ∨
    (st.hasBackpressureCallback = false ∧ (sendMessage m k tb st).2.2 = []) := by
  by_cases h : st.readyState = ReadyState.Open
  · simp only [sendMessage, if_pos h]
    have hpres := recordStats_preserves k tb.reply
      { st with transportCalls := st.transportCalls ++ [{ kind := k, payload := m }] }
    set st1 := recordStats k tb.reply
      { st with transportCalls := st.transportCalls ++ [{ kind := k, payload := m }] } with hst1
    have hact : st1.backpressureActive = st.backpressureActive := hpres.2.2.2.1
    have hcb : st1.hasBackpressureCallback = st.hasBackpressureCallback := hpres.2.2.2.2.1
    rcases applyBackpressure_step tb st1 with ⟨he, ha⟩ | ⟨hc, he, ha⟩ | ⟨hc, he⟩
    · left
      exact ⟨he, by rw [ha, hact]⟩
    · right; left
      rw [hcb] at hc
      rw [hact] at he ha
      exact ⟨hc, he, ha⟩
    · right; right
      rw [hcb] at hc
      exact ⟨hc, he⟩
  · rw [sendMessage_not_open _ _ _ _ h]
    left
    exact ⟨rfl, rfl⟩

theorem sendMessage_threshold_zero_events (m : List Nat) (k : SendMessageKind)
    (tb : TransportBehavior) (st : WebSocketState) (h0 : st.backpressureThreshold = 0) :
    (sendMessage m k tb st).2.2 = [] := by
  by_cases h : st.readyState = ReadyState.Open
  · simp only [sendMessage, if_pos h]
    have hth := (recordStats_preserves k tb.reply
      { st with transportCalls := st.transportCalls ++ [{ kind := k, payload := m }] }).2.2.1
    simp only [applyBackpressure]
    rw [if_neg]
    rw [hth]
    simp [h0]
  · rw [sendMessage_not_open _ _ _ _ h]

theorem runSends_threshold_zero (inputs : List SendInput) :
    ∀ st : WebSocketState, st.backpressureThreshold = 0 → (runSends st inputs).2 = [] := by
  induction inputs with
  | nil => intro st _; rfl
  | cons i is ih =>
    intro st h0
    have hz := (sendMessage_preserves_config i.message i.kind i.transport st).1
    simp only [runSends]
    rw [sendMessage_threshold_zero_events i.message i.kind i.transport st h0, List.nil_append]
    exact ih _ (by rw [hz, h0])

theorem runSends_alternating (inputs : List SendInput) :
    ∀ st : WebSocketState, st.hasBackpressureCallback = true →
      alternatingFrom st.backpressureActive
        ((runSends st inputs).2.map (fun e => e.aboveThreshold)) = true := by
  induction inputs with
  | nil => intro st _; rfl
  | cons i is ih =>
    intro st hcb
    have hcb2 : (sendMessage i.message i.kind i.transport st).2.1.hasBackpressureCallback = true := by
      rw [(sendMessage_preserves_config i.message i.kind i.transport st).2.1]; exact hcb
    simp only [runSends, List.map_append]
    rcases sendMessage_backpressure_step i.message i.kind i.transport st with
      ⟨he, ha⟩ | ⟨_, he, ha⟩ | ⟨hc, _⟩
    · rw [he]
      simp only [List.map_nil, List.nil_append]
      rw [← ha]
      exact ih _ hcb2
    · rw [he]
      simp only [List.map_cons, List.map_nil, List.cons_append, List.nil_append]
      simp only [alternatingFrom, Bool.and_eq_true, bne_iff_ne]
      refine ⟨by cases st.backpressureActive <;> simp, ?_⟩
      rw [← ha]
      exact ih _ hcb2
    · rw [hc] at hcb
      exact absurd hcb (by simp)

/-- C7: with a positive backpressureThreshold and a registered callback, a
send invokes the callback with (current buffered amount, true) exactly when
the buffered amount reaches or exceeds the threshold while the stored flag
was below, and with (current buffered amount, false) exactly when it falls
back below while the stored flag was above; over any sequence of sends the
invoked flags strictly alternate (never twice in a row the same), and with a
zero threshold the callback never fires. -/
theorem backpressure_callback_crossings (st : WebSocketState) :
    (∀ m : List Nat, ∀ k : SendMessageKind, ∀ tb : TransportBehavior,
      st.readyState = ReadyState.Open → 0 < st.backpressureThreshold →
      st.hasBackpressureCallback = true →
      (((sendMessage m k tb st).2.2 =
          [{ bufferedAmount := tb.bufferedAmount, aboveThreshold := true }]) ↔
        (st.backpressureActive = false ∧ st.backpressureThreshold ≤ tb.bufferedAmount)) ∧
      (((sendMessage m k tb st).2.2 =
          [{ bufferedAmount := tb.bufferedAmount, aboveThreshold := false }]) ↔
        (st.backpressureActive = true ∧ tb.bufferedAmount < st.backpressureThreshold))) ∧
    (st.backpressureThreshold = 0 →
      ∀ inputs : List SendInput, (runSends st inputs).2 = []) ∧
    (st.hasBackpressureCallback = true →
      ∀ inputs : List SendInput,
        alternatingFrom st.backpressureActive
          ((runSends st inputs).2.map (fun e => e.aboveThreshold)) = true) := by
  refine ⟨?_, fun h0 inputs => runSends_threshold_zero inputs st h0,
    fun hcb inputs => runSends_alternating inputs st hcb⟩
  intro m k tb hopen hpos hcb
  have hth := (recordStats_preserves k tb.reply
    { st with transportCalls := st.transportCalls ++ [{ kind := k, payload := m }] }).2.2.1
  have hac := (recordStats_preserves k tb.reply
    { st with transportCalls := st.transportCalls ++ [{ kind := k, payload := m }] }).2.2.2.1
  have hcc := (recordStats_preserves k tb.reply
    { st with transportCalls := st.transportCalls ++ [{ kind := k, payload := m }] }).2.2.2.2.1
  have hev : (sendMessage m k tb st).2.2 =
      (if decide (st.backpressureThreshold ≤ tb.bufferedAmount) ≠ st.backpressureActive then
        [{ bufferedAmount := tb.bufferedAmount,
           aboveThreshold := decide (st.backpressureThreshold ≤ tb.bufferedAmount) }]
      else []) := by
    simp only [sendMessage, if_pos hopen, applyBackpressure]
    rw [hth, hac, hcc, if_pos hpos, hcb]
    split
    · simp
    · rfl
  rw [hev]
  constructor
  · constructor
    · intro hfire
      by_cases hd : decide (st.backpressureThreshold ≤ tb.bufferedAmount) ≠ st.backpressureActive
      · rw [if_pos hd] at hfire
        have hflag : decide (st.backpressureThreshold ≤ tb.bufferedAmount) = true := by
          have := congrArg (fun l => (l.headD { bufferedAmount := 0, aboveThreshold := false }).aboveThreshold) hfire
          simpa using this
        refine ⟨?_, of_decide_eq_true hflag⟩
        rw [hflag] at hd
        simpa using Ne.symm hd
      · rw [if_neg hd] at hfire
        exact absurd hfire (by simp)
    · intro ⟨hbel, habove⟩
      rw [if_pos (by simp [hbel, habove])]
      simp [habove]
  · constructor
    · intro hfire
      by_cases hd : decide (st.backpressureThreshold ≤ tb.bufferedAmount) ≠ st.backpressureActive
      · rw [if_pos hd] at hfire
        have hflag : decide (st.backpressureThreshold ≤ tb.bufferedAmount) = false := by
          have := congrArg (fun l => (l.headD { bufferedAmount := 0, aboveThreshold := true }).aboveThreshold) hfire
          simpa using this
        refine ⟨?_, by simpa using of_decide_eq_false hflag⟩
        rw [hflag] at hd
        simpa using Ne.symm hd
      · rw [if_neg hd] at hfire
        exact absurd hfire (by simp)
    · intro ⟨habv, hbelow⟩
      rw [if_pos (by simp [habv, Nat.not_le_of_lt hbelow])]
      simp [Nat.not_le_of_lt hbelow]

theorem backpressure_callback_crossings_witness :
    (sendMessage [] SendMessageKind.Text
      { reply := { success := true, wireSize := 0 }, bufferedAmount := 12 } bpState).2.2 =
      [{ bufferedAmount := 12, aboveThreshold := true }] :=
  (((backpressure_callback_crossings bpState).1 [] SendMessageKind.Text
    { reply := { success := true, wireSize := 0 }, bufferedAmount := 12 }
    (by decide) (by decide) (by decide)).1).mpr (by decide)

/-!
## Opening handshake (IXWebSocketHandshake.cpp)
-/

/-- ASCII lower-casing used to model CaseInsensitiveLess (IXStrCaseCompare),
the comparator of the WebSocketHttpHeaders map. -/
def lowerStr (s : String) : String :=
  s.map Char.toLower

/-- Case-insensitive header-name equality, the lookup notion of the
WebSocketHttpHeaders map. -/
def headerNameEq (a b : String) : Bool :=
  lowerStr a == lowerStr b

/-- `headers.find(name) != headers.end()` on a WebSocketHttpHeaders map. -/
def hasHeader (headers : List (String × String)) (name : String) : Bool :=
  headers.any (fun h => headerNameEq h.1 name)

/-- The header lines written by WebSocketHandshake::clientHandshake into the
GET request, in emission order: a Host line unless the user supplied one;
the engine's Upgrade, Connection, Sec-WebSocket-Version and
Sec-WebSocket-Key lines, written unconditionally; User-Agent and Origin
lines unless the user supplied them; then every user extra header verbatim;
then the permessage-deflate extension lines when that extension is enabled.
The random Sec-WebSocket-Key value, the user-agent string and the deflate
extension lines are parameters of the model. -/
def clientHandshakeHeaders (host : String) (port : Nat) (protocol : String)
    (secWebSocketKey : String) (userAgentStr : String)
    (extraHeaders : List (String × String))
    (enableDeflate : Bool) (deflateHeaderLines : List (String × String)) :
    List (String × String) :=
  (if hasHeader extraHeaders "Host" then [] else [("Host", host ++ ":" ++ toString port)]) ++
  [("Upgrade", "websocket"),
   ("Connection", "Upgrade"),
   ("Sec-WebSocket-Version", "13"),
   ("Sec-WebSocket-Key", secWebSocketKey)] ++
  (if hasHeader extraHeaders "User-Agent" then [] else [("User-Agent", userAgentStr)]) ++
  (if hasHeader extraHeaders "Origin" then [] else
    [("Origin", protocol ++ "://" ++ host ++ ":" ++ toString port)]) ++
  extraHeaders ++
  (if enableDeflate then deflateHeaderLines else [])

/-- C2 as stated is false at a concrete input: with the extra-headers map
{"Upgrade": "h2c"} the user-supplied value for the reserved header name
Upgrade does appear in the emitted request (as an additional header line
after the engine's own "Upgrade: websocket"). -/
theorem clientHandshake_reserved_counterexample :
    ("Upgrade", "h2c") ∈
      clientHandshakeHeaders "example.com" 80 "ws" "KEY" "ixwebsocket"
        [("Upgrade", "h2c")] false [] ∧
    ("Upgrade", "websocket") ∈
      clientHandshakeHeaders "example.com" 80 "ws" "KEY" "ixwebsocket"
        [("Upgrade", "h2c")] false [] := by
  constructor <;> simp [clientHandshakeHeaders]

/-- C2 (amended): the client opening request always carries the handshake
engine's own values for the reserved headers — Upgrade: websocket,
Connection: Upgrade, Sec-WebSocket-Version: 13 and the engine's
Sec-WebSocket-Key — which are emitted unconditionally; user-supplied extra
headers are then appended verbatim and unfiltered, so a user value for a
reserved header name additionally appears as its own header line rather
than replacing or being replaced by the engine's line. -/
theorem clientHandshake_reserved_headers (host : String) (port : Nat) (protocol : String)
    (key userAgentStr : String) (extraHeaders : List (String × String))
    (enableDeflate : Bool) (deflateHeaderLines : List (String × String)) :
    ("Upgrade", "websocket") ∈ clientHandshakeHeaders host port protocol key userAgentStr
        extraHeaders enableDeflate deflateHeaderLines ∧
    ("Connection", "Upgrade") ∈ clientHandshakeHeaders host port protocol key userAgentStr
        extraHeaders enableDeflate deflateHeaderLines ∧
    ("Sec-WebSocket-Version", "13") ∈ clientHandshakeHeaders host port protocol key userAgentStr
        extraHeaders enableDeflate deflateHeaderLines ∧
    ("Sec-WebSocket-Key", key) ∈ clientHandshakeHeaders host port protocol key userAgentStr
        extraHeaders enableDeflate deflateHeaderLines ∧
    (∀ h ∈ extraHeaders, h ∈ clientHandshakeHeaders host port protocol key userAgentStr
        extraHeaders enableDeflate deflateHeaderLines) := by
  refine ⟨?_, ?_, ?_, ?_, ?_⟩ <;> simp [clientHandshakeHeaders]
  intro a b hmem
  tauto

theorem clientHandshake_reserved_headers_witness :
    ("X-Custom", "1") ∈
      clientHandshakeHeaders "example.com" 80 "ws" "KEY" "ixwebsocket"
        [("X-Custom", "1")] false [] :=
  (clientHandshake_reserved_headers "example.com" 80 "ws" "KEY" "ixwebsocket"
    [("X-Custom", "1")] false []).2.2.2.2 ("X-Custom", "1") (by simp)

/-- Prefix test on character lists. -/
def charsPrefixOf : List Char → List Char → Bool
  | [], _ => true
  | _ :: _, [] => false
  | a :: as, b :: bs => (a == b) && charsPrefixOf as bs

/-- Infix (substring) test on character lists. -/
def charsInfixOf (needle hay : List Char) : Bool :=
  match hay with
  | [] => needle.isEmpty
  | _ :: rest => charsPrefixOf needle hay || charsInfixOf needle rest

/-- Substring containment, `hay.find(needle) != std::string::npos`. -/
def strContains (hay needle : String) : Bool :=
  charsInfixOf needle.toList hay.toList

/-- Splitting a character list at commas (the spec's "comma-separated
list"). -/
def splitOnComma : List Char → List (List Char)
  | [] => [[]]
  | c :: rest =>
    if c = ',' then [] :: splitOnComma rest
    else
      match splitOnComma rest with
      | [] => [[c]]
      | seg :: segs => (c :: seg) :: segs

/-- The sub-protocol negotiation block of WebSocketHandshake::serverHandshake:
with a non-empty server sub-protocol list and a client
Sec-WebSocket-Protocol header present, select the first server-offered
protocol occurring as a substring of the client header value. -/
def selectSubProtocol (subProtocols : List String) (clientProtocols : Option String) :
    Option String :=
  match clientProtocols with
  | none => none
  | some cp =>
    if subProtocols.isEmpty then none
    else subProtocols.find? (fun sp => strContains cp sp)

/-- The Sec-WebSocket-Protocol lines the serverHandshake response carries:
one echoing the selected protocol, or none. -/
def serverSubProtocolHeaderLines (subProtocols : List String)
    (clientProtocols : Option String) : List (String × String) :=
  match selectSubProtocol subProtocols clientProtocols with
  | some p => [("Sec-WebSocket-Protocol", p)]
  | none => []

theorem findFirst_characterization {α : Type} (pred : α → Bool) :
    ∀ (l : List α) (p : α), l.find? pred = some p →
      ∃ pre post, l = pre ++ p :: post ∧ pred p = true ∧ ∀ q ∈ pre, pred q = false := by
  intro l
  induction l with
  | nil => intro p h; cases h
  | cons a t ih =>
    intro p h
    by_cases ha : pred a
    · rw [List.find?_cons_of_pos _ ha] at h
      cases h
      exact ⟨[], t, rfl, ha, by intro q hq; cases hq⟩
    · rw [List.find?_cons_of_neg _ ha] at h
      obtain ⟨pre, post, heq, hp, hpre⟩ := ih p h
      refine ⟨a :: pre, post, by rw [heq]; rfl, hp, ?_⟩
      intro q hq
      rcases List.mem_cons.mp hq with rfl | hq2
      · exact Bool.of_not_eq_true ha
      · exact hpre q hq2

/-- C3 as stated is false at a concrete input: the code matches server
protocols as substrings of the client header, not as elements of its
comma-separated list. With server list ["on"] and client header "json",
"on" is not an element of the client's comma-separated list, yet it is
selected and echoed. -/
theorem serverHandshake_subprotocol_counterexample :
    selectSubProtocol ["on"] (some "json") = some "on" ∧
    ((splitOnComma "json".toList).contains "on".toList) = false ∧
    serverSubProtocolHeaderLines ["on"] (some "json") =
      [("Sec-WebSocket-Protocol", "on")] := by
  refine ⟨by decide, by decide, by decide⟩

/-- C3 (amended): for every server handshake with a non-empty server
sub-protocol list and a client Sec-WebSocket-Protocol header, serverHandshake
selects the first protocol in the server's list that occurs as a substring
of the client's header value and echoes it in a Sec-WebSocket-Protocol
response header; when no server-offered protocol occurs as a substring, no
protocol is selected and no such header is emitted. -/
theorem serverHandshake_subprotocol (subProtocols : List String) (cp : String)
    (hne : subProtocols ≠ []) :
    (∀ p, selectSubProtocol subProtocols (some cp) = some p →
      strContains cp p = true ∧
      ∃ pre post, subProtocols = pre ++ p :: post ∧
        ∀ q ∈ pre, strContains cp q = false) ∧
    ((∀ sp ∈ subProtocols, strContains cp sp = false) →
      selectSubProtocol subProtocols (some cp) = none) ∧
    (∀ p, selectSubProtocol subProtocols (some cp) = some p ↔
      serverSubProtocolHeaderLines subProtocols (some cp) =
        [("Sec-WebSocket-Protocol", p)]) ∧
    (selectSubProtocol subProtocols (some cp) = none ↔
      serverSubProtocolHeaderLines subProtocols (some cp) = []) := by
  have hsel : selectSubProtocol subProtocols (some cp) =
      subProtocols.find? (fun sp => strContains cp sp) := by
    simp [selectSubProtocol, List.isEmpty_iff, hne]
  refine ⟨?_, ?_, ?_, ?_⟩
  · intro p hp
    rw [hsel] at hp
    obtain ⟨pre, post, heq, hpred, hpre⟩ := findFirst_characterization _ subProtocols p hp
    exact ⟨hpred, pre, post, heq, hpre⟩
  · intro hnone
    rw [hsel, List.find?_eq_none]
    intro x hx
    simp [hnone x hx]
  · intro p
    constructor
    · intro hp
      simp [serverSubProtocolHeaderLines, hp]
    · intro hlines
      cases hsel2 : selectSubProtocol subProtocols (some cp) with
      | none => simp [serverSubProtocolHeaderLines, hsel2] at hlines
      | some q =>
        have hq : q = p := by
          simpa [serverSubProtocolHeaderLines, hsel2] using hlines
        rw [hq]
  · constructor
    · intro hp
      simp [serverSubProtocolHeaderLines, hp]
    · intro hlines
      cases hsel2 : selectSubProtocol subProtocols (some cp) with
      | none => rfl
      | some q => simp [serverSubProtocolHeaderLines, hsel2] at hlines

theorem serverHandshake_subprotocol_witness :
    serverSubProtocolHeaderLines ["chat", "json"] (some "v2,json") =
      [("Sec-WebSocket-Protocol", "json")] :=
  ((serverHandshake_subprotocol ["chat", "json"] "v2,json"
    (by simp)).2.2.1 "json").mp (by decide)

/-!
## Proxy tunnel handshake (ProxyConnect, IXProxyConnect.cpp)

The bytes the proxy will deliver are the input stream; rawSend is taken to
succeed (its failures are transport conditions below this layer) and the
bytes written are collected where a claim needs them.
-/

/-- ProxyConnect::rawRecvLine: receive one byte at a time, appending to the
line, until the line ends in CRLF; fails when the stream is exhausted
first.  Returns the line (CRLF included) and the remaining stream. -/
def rawRecvLine (acc : List Char) : List Char → Option (List Char × List Char)
  | [] => none
  | c :: rest =>
    if c = '\n' ∧ acc.getLast? = some '\r' then some (acc ++ [c], rest)
    else rawRecvLine (acc ++ [c]) rest

theorem rawRecvLine_shrinks :
    ∀ (s acc line rest : List Char),
      rawRecvLine acc s = some (line, rest) → rest.length < s.length := by
  intro s
  induction s with
  | nil => intro acc line rest h; cases h
  | cons c cs ih =>
    intro acc line rest h
    simp only [rawRecvLine] at h
    split at h
    · cases h
      simp
    · exact Nat.lt_succ_of_lt (ih (acc ++ [c]) line rest h)

/-- The header-draining loop of ProxyConnect::httpConnect with explicit
fuel: read lines until a bare CRLF line arrives; fail when a read fails.
Each iteration consumes at least one byte, so any fuel above the stream
length is exhaustive (drainHeaders_unfold below recovers the plain loop
equation). -/
def drainHeadersFuel : Nat → List Char → Option (List Char)
  | 0, _ => none
  | fuel + 1, s =>
    match rawRecvLine [] s with
    | none => none
    | some (line, rest) =>
      if line = ['\r', '\n'] then some rest
      else drainHeadersFuel fuel rest

/-- The header-draining loop of ProxyConnect::httpConnect: read lines until
a bare CRLF line arrives; fail when a read fails.  Returns the remaining
stream. -/
def drainHeaders (s : List Char) : Option (List Char) :=
  drainHeadersFuel (s.length + 1) s

theorem drainHeadersFuel_congr :
    ∀ (f1 : Nat) (s : List Char) (f2 : Nat), s.length < f1 → s.length < f2 →
      drainHeadersFuel f1 s = drainHeadersFuel f2 s := by
  intro f1
  induction f1 with
  | zero => intro s f2 h1 _; exact absurd h1 (Nat.not_lt_zero _)
  | succ f1 ih =>
    intro s f2 h1 h2
    cases f2 with
    | zero => exact absurd h2 (Nat.not_lt_zero _)
    | succ f2 =>
      simp only [drainHeadersFuel]
      cases hline : rawRecvLine [] s with
      | none => rfl
      | some pr =>
        obtain ⟨line, rest⟩ := pr
        simp only
        split
        · rfl
        · have hlt := rawRecvLine_shrinks s [] line rest hline
          exact ih rest f2 (Nat.lt_of_lt_of_le hlt (Nat.le_of_lt_succ h1))
            (Nat.lt_of_lt_of_le hlt (Nat.le_of_lt_succ h2))

/-- The fueled drain satisfies the loop's own recursion. -/
theorem drainHeaders_unfold (s : List Char) :
    drainHeaders s =
      match rawRecvLine [] s with
      | none => none
      | some (line, rest) =>
        if line = ['\r', '\n'] then some rest
        else drainHeaders rest := by
  show drainHeadersFuel (s.length + 1) s = _
  simp only [drainHeadersFuel]
  cases hline : rawRecvLine [] s with
  | none => rfl
  | some pr =>
    obtain ⟨line, rest⟩ := pr
    simp only
    split
    · rfl
    · exact drainHeadersFuel_congr s.length rest (rest.length + 1)
        (rawRecvLine_shrinks s [] line rest hline) (Nat.lt_succ_self _)

/-- Value of a list of decimal digit characters. -/
def digitsVal (ds : List Char) : Nat :=
  ds.foldl (fun acc c => acc * 10 + (c.toNat - 48)) 0

/-- std::stoi: skip leading whitespace, accept an optional sign, then
require at least one decimal digit and parse the maximal digit run; `none`
models the std::invalid_argument exception thrown when no digit is
found. -/
def stoiChars (s : List Char) : Option Int :=
  let s1 := s.dropWhile (fun c =>
    c == ' ' || c == '\t' || c == '\n' || c == '\x0b' || c == '\x0c' || c == '\r')
  match s1 with
  | '-' :: rest =>
    let ds := rest.takeWhile Char.isDigit
    if ds.isEmpty then none else some (-(digitsVal ds : Int))
  | '+' :: rest =>
    let ds := rest.takeWhile Char.isDigit
    if ds.isEmpty then none else some ((digitsVal ds : Int))
  | _ =>
    let ds := s1.takeWhile Char.isDigit
    if ds.isEmpty then none else some ((digitsVal ds : Int))

/-- Outcome of ProxyConnect::httpConnect: `ok` for return true, `fail` for
return false with the error message set at that point, `thrown` for the
std::invalid_argument escaping std::stoi. -/
inductive ProxyHttpOutcome
  | ok
  | fail (errMsg : String)
  | thrown
deriving Repr, DecidableEq

/-- ProxyConnect::httpConnect after the CONNECT request has been written:
read the status line; when it starts with "HTTP/1." and is at least 12
bytes long, parse `stoi(substr(9, 3))`, otherwise the status stays 0;
drain the response headers up to a bare CRLF; succeed iff the status is
200; each failure returns false with a descriptive message. -/
def httpConnect (stream : List Char) : ProxyHttpOutcome :=
  match rawRecvLine [] stream with
  | none => ProxyHttpOutcome.fail "Failed to read proxy response"
  | some (statusLine, rest) =>
    match (if charsPrefixOf "HTTP/1.".toList statusLine ∧ 12 ≤ statusLine.length then
        stoiChars ((statusLine.drop 9).take 3)
      else some 0) with
    | none => ProxyHttpOutcome.thrown
    | some statusCode =>
      match drainHeaders rest with
      | none => ProxyHttpOutcome.fail "Failed to read proxy headers"
      | some _ =>
        if statusCode = 200 then ProxyHttpOutcome.ok
        else ProxyHttpOutcome.fail ("Proxy CONNECT failed with status: " ++ toString statusCode)

/-- C4 as stated is false at a concrete input: for the status line
"XTTP/1.1 200 OK" the integer parsed at offset 9 with length 3 is 200 and
the headers drain to the bare CRLF, yet httpConnect fails (the code parses
the status only when the line starts with "HTTP/1." and reports status 0
otherwise). -/
theorem httpConnect_status_counterexample :
    rawRecvLine [] "XTTP/1.1 200 OK\r\n\r\n".toList =
      some ("XTTP/1.1 200 OK\r\n".toList, "\r\n".toList) ∧
    stoiChars (("XTTP/1.1 200 OK\r\n".toList.drop 9).take 3) = some 200 ∧
    drainHeaders "\r\n".toList = some [] ∧
    httpConnect "XTTP/1.1 200 OK\r\n\r\n".toList ≠ ProxyHttpOutcome.ok := by
  refine ⟨by decide, by decide, by decide, by decide⟩

/-- C4 (amended): httpConnect succeeds iff the status line received starts
with "HTTP/1." and is at least 12 bytes long, the integer parsed at offset
9 with length 3 of it equals 200, and all response headers up to a bare
CRLF line are drained; and every failure (returning false) carries a
non-empty descriptive error message. -/
theorem httpConnect_status (stream : List Char) :
    (httpConnect stream = ProxyHttpOutcome.ok ↔
      ∃ statusLine rest,
        rawRecvLine [] stream = some (statusLine, rest) ∧
        charsPrefixOf "HTTP/1.".toList statusLine = true ∧
        12 ≤ statusLine.length ∧
        stoiChars ((statusLine.drop 9).take 3) = some 200 ∧
        ∃ rest2, drainHeaders rest = some rest2) ∧
    (∀ msg, httpConnect stream = ProxyHttpOutcome.fail msg → msg ≠ "") := by
  constructor
  · constructor
    · intro hok
      unfold httpConnect at hok
      split at hok
      · exact absurd hok (by simp)
      next statusLine rest hline =>
        split at hok
        · exact absurd hok (by simp)
        next statusCode hstatus =>
          split at hok
          · exact absurd hok (by simp)
          next rest2 hdrain =>
            split at hok
            next hcode =>
              rw [hcode] at hstatus
              split at hstatus
              next hguard =>
                exact ⟨statusLine, rest, hline, by simpa using hguard.1, hguard.2,
                  hstatus, rest2, hdrain⟩
              next hguard =>
                exact absurd (Option.some.inj hstatus) (by decide)
            next hcode => exact absurd hok (by simp)
    · intro ⟨statusLine, rest, hline, hpre, hlen, hstoi, rest2, hdrain⟩
      unfold httpConnect
      rw [hline]
      dsimp only
      rw [if_pos (⟨by exact hpre, hlen⟩ :
        charsPrefixOf "HTTP/1.".toList statusLine ∧ 12 ≤ statusLine.length)]
      rw [hstoi]
      dsimp only
      rw [hdrain]
      dsimp only
      rw [if_pos rfl]
  · intro msg hmsg
    unfold httpConnect at hmsg
    split at hmsg
    · cases hmsg
      decide
    next statusLine rest hline =>
      split at hmsg
      · cases hmsg
      next statusCode hstatus =>
        split at hmsg
        · cases hmsg
          decide
        next rest2 hdrain =>
          split at hmsg
          next hcode => cases hmsg
          next hcode =>
            cases hmsg
            intro habs
            have hl : ("Proxy CONNECT failed with status: " ++ toString statusCode).length = 0 := by
              rw [habs]; decide
            rw [String.length_append] at hl
            have h34 : ("Proxy CONNECT failed with status: ").length = 34 := by decide
            omega

theorem httpConnect_status_witness :
    httpConnect "HTTP/1.1 200 Connection established\r\nVia: proxy\r\n\r\n".toList =
      ProxyHttpOutcome.ok :=
  (httpConnect_status
    "HTTP/1.1 200 Connection established\r\nVia: proxy\r\n\r\n".toList).1.mpr
    ⟨"HTTP/1.1 200 Connection established\r\n".toList,
     "Via: proxy\r\n\r\n".toList,
     by decide, by decide, by decide, by decide,
     [], by decide⟩

/-!
## SOCKS5 tunnel handshake (ProxyConnect::socks5Connect)

Bytes are Nat values; a `static_cast<char>` truncation is `% 256`.  The
proxy's reply bytes form the input stream; the byte strings written by
rawSend are collected in order.
-/

/-- ProxyConnect::rawRecv of exactly n bytes. -/
def rawRecvN (n : Nat) (s : List Nat) : Option (List Nat × List Nat) :=
  if n ≤ s.length then some (s.take n, s.drop n) else none

/-- Outcome of socks5Connect: return true, or return false with the error
message set at that point (the bound-address drain returns false without
touching the message). -/
inductive Socks5Outcome
  | ok
  | fail (errMsg : String)
deriving Repr, DecidableEq

/-- The proxy credentials of ProxyConfig; requiresAuth() is a non-empty
username. -/
structure ProxyCreds where
  username : List Nat
  password : List Nat
deriving Repr, DecidableEq

/-- ProxyConfig::requiresAuth. -/
def requiresAuth (p : ProxyCreds) : Bool :=
  !p.username.isEmpty

/-- The greeting socks5Connect sends: version 5, then method count and
methods — 0x00 only, or 0x00 and 0x02 when credentials are present. -/
def socks5Greeting (p : ProxyCreds) : List Nat :=
  if requiresAuth p then [0x05, 0x02, 0x00, 0x02] else [0x05, 0x01, 0x00]

/-- The username/password auth request: 0x01, |u| (truncated to a byte), u,
|p| (truncated), p. -/
def socks5AuthRequest (p : ProxyCreds) : List Nat :=
  [0x01, p.username.length % 256] ++ p.username ++ [p.password.length % 256] ++ p.password

/-- The connect request: 0x05 0x01 0x00, ATYP 0x03, the host length byte,
the host bytes, then the port's high and low bytes. -/
def socks5ConnectRequest (targetHost : List Nat) (targetPort : Nat) : List Nat :=
  [0x05, 0x01, 0x00, 0x03, targetHost.length % 256] ++ targetHost ++
    [(targetPort / 256) % 256, targetPort % 256]

/-- RFC 1928 reply code names used in socks5Connect's error message. -/
def socks5ErrorName (code : Nat) : String :=
  if code = 1 then "general SOCKS server failure"
  else if code = 2 then "connection not allowed by ruleset"
  else if code = 3 then "network unreachable"
  else if code = 4 then "host unreachable"
  else if code = 5 then "connection refused"
  else if code = 6 then "TTL expired"
  else if code = 7 then "command not supported"
  else if code = 8 then "address type not supported"
  else "unknown error"

/-- Steps 4 and 5 of socks5Connect, entered after method (and auth)
negotiation: send the connect request, read the 4-byte reply, require
version 0x05 and reply code 0x00, then drain the bound address (4, 1+N or
16 bytes by ATYP) and the 2-byte bound port. -/
def socks5AfterAuth (targetHost : List Nat) (targetPort : Nat)
    (sent : List (List Nat)) (s : List Nat) : Socks5Outcome × List (List Nat) :=
  let sent2 := sent ++ [socks5ConnectRequest targetHost targetPort]
  match rawRecvN 4 s with
  | none => (Socks5Outcome.fail "Failed to read SOCKS5 connect response", sent2)
  | some (cr, s2) =>
    if cr.getD 0 0 ≠ 0x05 then
      (Socks5Outcome.fail "Invalid SOCKS5 version in connect response", sent2)
    else if cr.getD 1 0 ≠ 0x00 then
      (Socks5Outcome.fail ("SOCKS5 connect failed: " ++ socks5ErrorName (cr.getD 1 0)), sent2)
    else
      match (if cr.getD 3 0 = 0x01 then rawRecvN 4 s2
             else if cr.getD 3 0 = 0x03 then
               match rawRecvN 1 s2 with
               | none => none
               | some (lenb, s3) => rawRecvN (lenb.getD 0 0) s3
             else if cr.getD 3 0 = 0x04 then rawRecvN 16 s2
             else some ([], s2)) with
      | none => (Socks5Outcome.fail "", sent2)
      | some (_, s4) =>
        match rawRecvN 2 s4 with
        | none => (Socks5Outcome.fail "", sent2)
        | some _ => (Socks5Outcome.ok, sent2)

/-- ProxyConnect::socks5Connect: send the greeting, read the 2-byte method
reply, require version 0x05 and method not 0xFF; run username/password
auth when the server chose method 0x02; then perform the connect
exchange.  Returns the outcome and every byte string sent, in order. -/
def socks5Connect (p : ProxyCreds) (targetHost : List Nat) (targetPort : Nat)
    (stream : List Nat) : Socks5Outcome × List (List Nat) :=
  let greeting := socks5Greeting p
  match rawRecvN 2 stream with
  | none => (Socks5Outcome.fail "Failed to read SOCKS5 greeting response", [greeting])
  | some (resp, s1) =>
    if resp.getD 0 0 ≠ 0x05 then
      (Socks5Outcome.fail "Invalid SOCKS5 version in response", [greeting])
    else if resp.getD 1 0 = 0xFF then
      (Socks5Outcome.fail "SOCKS5 server rejected all auth methods", [greeting])
    else if resp.getD 1 0 = 0x02 then
      if ¬ requiresAuth p then
        (Socks5Outcome.fail "SOCKS5 server requires auth but no credentials provided", [greeting])
      else
        match rawRecvN 2 s1 with
        | none => (Socks5Outcome.fail "Failed to read SOCKS5 auth response",
                   [greeting, socks5AuthRequest p])
        | some (authResp, s2) =>
          if authResp.getD 1 0 ≠ 0x00 then
            (Socks5Outcome.fail "SOCKS5 authentication failed", [greeting, socks5AuthRequest p])
          else socks5AfterAuth targetHost targetPort [greeting, socks5AuthRequest p] s2
    else socks5AfterAuth targetHost targetPort [greeting] s1

theorem socks5AfterAuth_sends (targetHost : List Nat) (targetPort : Nat)
    (sent : List (List Nat)) (s : List Nat) :
    (socks5AfterAuth targetHost targetPort sent s).2 =
      sent ++ [socks5ConnectRequest targetHost targetPort] := by
  unfold socks5AfterAuth
  split
  · rfl
  · split
    · rfl
    · split
      · rfl
      · split
        · rfl
        · split
          · rfl
          · rfl

/-- C8: socks5Connect sends exactly the greeting 0x05 0x01 0x00 without
credentials and exactly 0x05 0x02 0x00 0x02 with credentials (non-empty
username), as its first write; it cannot succeed unless the two-byte method
reply starts with 0x05 and its method byte is not 0xFF; its connect
request, whenever written, is exactly 0x05 0x01 0x00 0x03, the host length
byte, the host bytes and the port's high and low bytes; and nothing else is
ever written besides the greeting, the auth request and the connect
request. -/
theorem socks5Connect_wire (p : ProxyCreds) (host : List Nat) (port : Nat)
    (stream : List Nat) :
    ((socks5Connect p host port stream).2.head? =
      some (if p.username.isEmpty then [0x05, 0x01, 0x00] else [0x05, 0x02, 0x00, 0x02])) ∧
    ((socks5Connect p host port stream).1 = Socks5Outcome.ok →
      2 ≤ stream.length ∧ stream.getD 0 0 = 0x05 ∧ stream.getD 1 0 ≠ 0xFF) ∧
    ((socks5Connect p host port stream).1 = Socks5Outcome.ok →
      ([0x05, 0x01, 0x00, 0x03, host.length % 256] ++ host ++
        [(port / 256) % 256, port % 256]) ∈ (socks5Connect p host port stream).2) ∧
    (∀ c ∈ (socks5Connect p host port stream).2,
      c = socks5Greeting p ∨ c = socks5AuthRequest p ∨
      c = [0x05, 0x01, 0x00, 0x03, host.length % 256] ++ host ++
        [(port / 256) % 256, port % 256]) := by
  have hgr : socks5Greeting p =
      (if p.username.isEmpty then [0x05, 0x01, 0x00] else [0x05, 0x02, 0x00, 0x02]) := by
    cases h : p.username.isEmpty <;> simp [socks5Greeting, requiresAuth, h]
  have hcr : socks5ConnectRequest host port =
      [0x05, 0x01, 0x00, 0x03, host.length % 256] ++ host ++
        [(port / 256) % 256, port % 256] := rfl
  rcases stream with _ | ⟨b0, stream1⟩
  · refine ⟨by simp [socks5Connect, rawRecvN, hgr], ?_, ?_, ?_⟩
    · intro h; exact absurd h (by simp [socks5Connect, rawRecvN])
    · intro h; exact absurd h (by simp [socks5Connect, rawRecvN])
    · intro c hc
      simp [socks5Connect, rawRecvN] at hc
      exact Or.inl (by rw [hc])
  rcases stream1 with _ | ⟨b1, rest⟩
  · refine ⟨by simp [socks5Connect, rawRecvN, hgr], ?_, ?_, ?_⟩
    · intro h; exact absurd h (by simp [socks5Connect, rawRecvN])
    · intro h; exact absurd h (by simp [socks5Connect, rawRecvN])
    · intro c hc
      simp [socks5Connect, rawRecvN] at hc
      exact Or.inl (by rw [hc])
  · have hrecv : rawRecvN 2 (b0 :: b1 :: rest) = some ([b0, b1], rest) := by
      simp [rawRecvN]
    have hrun : socks5Connect p host port (b0 :: b1 :: rest) =
        (if b0 ≠ 0x05 then
          (Socks5Outcome.fail "Invalid SOCKS5 version in response", [socks5Greeting p])
        else if b1 = 0xFF then
          (Socks5Outcome.fail "SOCKS5 server rejected all auth methods", [socks5Greeting p])
        else if b1 = 0x02 then
          if ¬ requiresAuth p then
            (Socks5Outcome.fail "SOCKS5 server requires auth but no credentials provided",
             [socks5Greeting p])
          else
            match rawRecvN 2 rest with
            | none => (Socks5Outcome.fail "Failed to read SOCKS5 auth response",
                       [socks5Greeting p, socks5AuthRequest p])
            | some (authResp, s2) =>
              if authResp.getD 1 0 ≠ 0x00 then
                (Socks5Outcome.fail "SOCKS5 authentication failed",
                 [socks5Greeting p, socks5AuthRequest p])
              else socks5AfterAuth host port [socks5Greeting p, socks5AuthRequest p] s2
        else socks5AfterAuth host port [socks5Greeting p] rest) := by
      unfold socks5Connect
      rw [hrecv]
      rfl
    have hsendshape : (socks5Connect p host port (b0 :: b1 :: rest)).2 = [socks5Greeting p] ∨
        (socks5Connect p host port (b0 :: b1 :: rest)).2 =
          [socks5Greeting p, socks5AuthRequest p] ∨
        (socks5Connect p host port (b0 :: b1 :: rest)).2 =
          [socks5Greeting p, socks5ConnectRequest host port] ∨
        (socks5Connect p host port (b0 :: b1 :: rest)).2 =
          [socks5Greeting p, socks5AuthRequest p, socks5ConnectRequest host port] := by
      rw [hrun]
      split
      · exact Or.inl rfl
      split
      · exact Or.inl rfl
      split
      · split
        · exact Or.inl rfl
        · split
          · exact Or.inr (Or.inl rfl)
          next authResp s2 _ =>
            split
            · exact Or.inr (Or.inl rfl)
            · rw [socks5AfterAuth_sends]
              exact Or.inr (Or.inr (Or.inr rfl))
      · rw [socks5AfterAuth_sends]
        exact Or.inr (Or.inr (Or.inl rfl))
    have hokcond : (socks5Connect p host port (b0 :: b1 :: rest)).1 = Socks5Outcome.ok →
        b0 = 0x05 ∧ b1 ≠ 0xFF := by
      intro hok
      rw [hrun] at hok
      by_cases h0 : b0 = 0x05
      · refine ⟨h0, ?_⟩
        intro h1
        rw [if_neg (by simp [h0]), if_pos h1] at hok
        cases hok
      · rw [if_pos (by simp [h0])] at hok
        cases hok
    have hokconnect : (socks5Connect p host port (b0 :: b1 :: rest)).1 = Socks5Outcome.ok →
        socks5ConnectRequest host port ∈ (socks5Connect p host port (b0 :: b1 :: rest)).2 := by
      intro hok
      rcases hsendshape with hs | hs | hs | hs
      · exfalso
        rw [hrun] at hok hs
        by_cases h0 : b0 = 0x05
        · rw [if_neg (by simp [h0])] at hok hs
          by_cases h1 : b1 = 0xFF
          · rw [if_pos h1] at hok; cases hok
          · rw [if_neg h1] at hok hs
            by_cases h2 : b1 = 0x02
            · rw [if_pos h2] at hok hs
              by_cases hauth : requiresAuth p
              · rw [if_neg (by simp [hauth])] at hok hs
                cases hrecv2 : rawRecvN 2 rest with
                | none => rw [hrecv2] at hok; cases hok
                | some pr =>
                  obtain ⟨authResp, s2⟩ := pr
                  rw [hrecv2] at hok hs
                  dsimp only at hok hs
                  by_cases hba : authResp.getD 1 0 ≠ 0x00
                  · rw [if_pos hba] at hok; cases hok
                  · rw [if_neg hba] at hs
                    rw [socks5AfterAuth_sends] at hs
                    simp at hs
              · rw [if_pos (by simp [hauth])] at hok; cases hok
            · rw [if_neg h2] at hs
              rw [socks5AfterAuth_sends] at hs
              simp at hs
        · rw [if_pos (by simp [h0])] at hok; cases hok
      · exfalso
        rw [hrun] at hok hs
        by_cases h0 : b0 = 0x05
        · rw [if_neg (by simp [h0])] at hok hs
          by_cases h1 : b1 = 0xFF
          · rw [if_pos h1] at hok; cases hok
          · rw [if_neg h1] at hok hs
            by_cases h2 : b1 = 0x02
            · rw [if_pos h2] at hok hs
              by_cases hauth : requiresAuth p
              · rw [if_neg (by simp [hauth])] at hok hs
                cases hrecv2 : rawRecvN 2 rest with
                | none => rw [hrecv2] at hok; cases hok
                | some pr =>
                  obtain ⟨authResp, s2⟩ := pr
                  rw [hrecv2] at hok hs
                  dsimp only at hok hs
                  by_cases hba : authResp.getD 1 0 ≠ 0x00
                  · rw [if_pos hba] at hok; cases hok
                  · rw [if_neg hba] at hs
                    rw [socks5AfterAuth_sends] at hs
                    simp at hs
              · rw [if_pos (by simp [hauth])] at hok; cases hok
            · rw [if_neg h2] at hs
              rw [socks5AfterAuth_sends] at hs
              simp [socks5ConnectRequest, socks5AuthRequest] at hs
        · rw [if_pos (by simp [h0])] at hok; cases hok
      · rw [hs]; simp
      · rw [hs]; simp
    refine ⟨?_, ?_, hokconnect, ?_⟩
    · rw [← hgr]
      rcases hsendshape with hs | hs | hs | hs <;> rw [hs] <;> rfl
    · intro hok
      obtain ⟨h0, h1⟩ := hokcond hok
      exact ⟨by simp, by simpa using h0, by simpa using h1⟩
    · intro c hc
      rcases hsendshape with hs | hs | hs | hs <;> rw [hs] at hc <;> simp at hc
      · exact Or.inl hc
      · rcases hc with hc | hc
        · exact Or.inl hc
        · exact Or.inr (Or.inl hc)
      · rcases hc with hc | hc
        · exact Or.inl hc
        · exact Or.inr (Or.inr (by rw [hc, hcr]))
      · rcases hc with hc | hc | hc
        · exact Or.inl hc
        · exact Or.inr (Or.inl hc)
        · exact Or.inr (Or.inr (by rw [hc, hcr]))

theorem socks5Connect_wire_witness :
    (socks5Connect { username := [], password := [] } [97] 258
        [0x05, 0x00, 0x05, 0x00, 0x00, 0x01, 9, 9, 9, 9, 0, 80]).1 = Socks5Outcome.ok ∧
    (socks5Connect { username := [], password := [] } [97] 258
        [0x05, 0x00, 0x05, 0x00, 0x00, 0x01, 9, 9, 9, 9, 0, 80]).2 =
      [[0x05, 0x01, 0x00], [0x05, 0x01, 0x00, 0x03, 1, 97, 1, 2]] ∧
    (socks5Connect { username := [], password := [] } [97] 258
        [0x05, 0x00, 0x05, 0x00, 0x00, 0x01, 9, 9, 9, 9, 0, 80]).2.head? =
      some [0x05, 0x01, 0x00] :=
  ⟨by decide, by decide,
   (socks5Connect_wire { username := [], password := [] } [97] 258
     [0x05, 0x00, 0x05, 0x00, 0x00, 0x01, 9, 9, 9, 9, 0, 80]).1⟩

/-!
## HTTP connection pool (IXHttpConnectionPool.cpp)

One key's vector of idle connections; times are seconds on a monotonic
clock.
-/

/-- A pooled socket: an identity and whether isOpen() holds. -/
structure PoolSocket where
  id : Nat
  isOpen : Bool
deriving Repr, DecidableEq

/-- A pool entry: the socket and its lastUsed timestamp. -/
structure PooledConnection where
  socket : PoolSocket
  lastUsed : Nat
deriving Repr, DecidableEq

/-- HttpConnectionPool::cleanup on one key's vector: erase every connection
whose idle time exceeds the idle timeout or whose socket is closed. -/
def cleanup (now idleTimeoutSecs : Nat) (pool : List PooledConnection) :
    List PooledConnection :=
  pool.filter (fun c => !(decide (idleTimeoutSecs < now - c.lastUsed) || !c.socket.isOpen))

/-- The acquire loop over the reversed vector: pop the back entry until a
still-open socket appears. -/
def acquireFromRev : List PooledConnection → Option PoolSocket × List PooledConnection
  | [] => (none, [])
  | c :: rest => if c.socket.isOpen then (some c.socket, rest) else acquireFromRev rest

/-- HttpConnectionPool::acquire's pop-from-the-back loop on the vector in
its stored order. -/
def acquireFromVector (conns : List PooledConnection) :
    Option PoolSocket × List PooledConnection :=
  let r := acquireFromRev conns.reverse
  (r.1, r.2.reverse)

/-- HttpConnectionPool::acquire for one key: run cleanup, then pop entries
from the back of the vector until one holds a still-open socket and return
it; otherwise create a new connection (`fresh` stands for the socket
createSocket builds). -/
def acquire (now idleTimeoutSecs : Nat) (pool : List PooledConnection)
    (fresh : PoolSocket) : PoolSocket × List PooledConnection :=
  match acquireFromVector (cleanup now idleTimeoutSecs pool) with
  | (some s, rest) => (s, rest)
  | (none, rest) => (fresh, rest)

/-- HttpConnectionPool::release for one key: ignore closed sockets; drop the
socket when the vector already holds maxConnectionsPerHost entries;
otherwise push it to the back with the current time. -/
def release (maxConnectionsPerHost : Nat) (now : Nat) (s : PoolSocket)
    (pool : List PooledConnection) : List PooledConnection :=
  if !s.isOpen then pool
  else if maxConnectionsPerHost ≤ pool.length then pool
  else pool ++ [{ socket := s, lastUsed := now }]

theorem cleanup_all_open (now idle : Nat) (pool : List PooledConnection) :
    ∀ c ∈ cleanup now idle pool, c.socket.isOpen = true := by
  intro c hc
  have := List.of_mem_filter hc
  simp only [Bool.not_eq_true', Bool.or_eq_false_iff] at this
  simpa using this.2

theorem acquireFromVector_concat (l : List PooledConnection) (c : PooledConnection)
    (hopen : c.socket.isOpen = true) :
    acquireFromVector (l ++ [c]) = (some c.socket, l) := by
  simp [acquireFromVector, acquireFromRev, List.reverse_append, hopen]

theorem acquireFromRev_length (l : List PooledConnection) :
    (acquireFromRev l).2.length ≤ l.length := by
  induction l with
  | nil => exact Nat.le_refl _
  | cons c rest ih =>
    simp only [acquireFromRev]
    split
    · exact Nat.le_succ _
    · exact Nat.le_succ_of_le ih

/-- C9 as stated is false at a concrete input: releasing the open sockets 1
then 2 into an empty pool and acquiring returns socket 2, the most recently
released one, not the first-in socket 1 — the pool is a LIFO stack, not a
FIFO queue. -/
theorem connectionPool_fifo_counterexample :
    acquire 0 60
      (release 4 0 { id := 2, isOpen := true }
        (release 4 0 { id := 1, isOpen := true } []))
      { id := 99, isOpen := true } =
      ({ id := 2, isOpen := true },
       [{ socket := { id := 1, isOpen := true }, lastUsed := 0 }]) ∧
    ({ id := 2, isOpen := true } : PoolSocket) ≠ { id := 1, isOpen := true } := by
  decide

/-- C9 (amended): one key's pool is a bounded LIFO stack of idle sockets:
release appends a still-open socket unless the vector already holds
maxConnectionsPerHost entries (then the socket is dropped), so a vector
within the bound stays within it; acquire, after cleanup, removes and
returns the most recently released still-open socket (last in, first out),
or hands out a freshly created one when none remains, and never grows the
vector. -/
theorem connectionPool_bounded_lifo (maxC now idle : Nat)
    (pool : List PooledConnection) (s fresh : PoolSocket) :
    (pool.length ≤ maxC → (release maxC now s pool).length ≤ maxC) ∧
    (s.isOpen = true → pool.length < maxC →
      release maxC now s pool = pool ++ [{ socket := s, lastUsed := now }]) ∧
    (s.isOpen = false → release maxC now s pool = pool) ∧
    (maxC ≤ pool.length → release maxC now s pool = pool) ∧
    (∀ l c, cleanup now idle pool = l ++ [c] →
      acquire now idle pool fresh = (c.socket, l)) ∧
    (cleanup now idle pool = [] → acquire now idle pool fresh = (fresh, [])) ∧
    (acquire now idle pool fresh).2.length ≤ pool.length := by
  refine ⟨?_, ?_, ?_, ?_, ?_, ?_, ?_⟩
  · intro hle
    unfold release
    split
    · exact hle
    · split
      · exact hle
      next hlt =>
        rw [List.length_append]
        simpa using Nat.lt_of_not_le hlt
  · intro hopen hlt
    unfold release
    rw [if_neg (by simp [hopen]), if_neg (by simpa using Nat.not_le_of_lt hlt)]
  · intro hclosed
    unfold release
    rw [if_pos (by simp [hclosed])]
  · intro hfull
    unfold release
    split
    · rfl
    · rfl
  · intro l c heq
    have hopen : c.socket.isOpen = true :=
      cleanup_all_open now idle pool c (by rw [heq]; simp)
    unfold acquire
    rw [heq, acquireFromVector_concat l c hopen]
  · intro heq
    unfold acquire
    rw [heq]
    rfl
  · have hclean : (cleanup now idle pool).length ≤ pool.length :=
      List.length_filter_le _ _
    have hrev : (acquireFromRev (cleanup now idle pool).reverse).2.length ≤
        (cleanup now idle pool).length := by
      have := acquireFromRev_length (cleanup now idle pool).reverse
      simpa using this
    have h2 : (acquire now idle pool fresh).2 =
        (acquireFromVector (cleanup now idle pool)).2 := by
      unfold acquire
      cases hav : acquireFromVector (cleanup now idle pool) with
      | mk fst snd => cases fst <;> rfl
    rw [h2]
    have h3 : (acquireFromVector (cleanup now idle pool)).2.length =
        (acquireFromRev (cleanup now idle pool).reverse).2.length := by
      simp [acquireFromVector]
    rw [h3]
    exact Nat.le_trans hrev hclean

theorem connectionPool_bounded_lifo_witness :
    (release 4 0 { id := 1, isOpen := true } []).length ≤ 4 ∧
    acquire 0 60
      [{ socket := { id := 1, isOpen := true }, lastUsed := 0 },
       { socket := { id := 2, isOpen := true }, lastUsed := 0 }]
      { id := 99, isOpen := true } =
      ({ id := 2, isOpen := true },
       [{ socket := { id := 1, isOpen := true }, lastUsed := 0 }]) :=
  ⟨(connectionPool_bounded_lifo 4 0 60 [] { id := 1, isOpen := true }
      { id := 99, isOpen := true }).1 (by decide),
   (connectionPool_bounded_lifo 4 0 60
      [{ socket := { id := 1, isOpen := true }, lastUsed := 0 },
       { socket := { id := 2, isOpen := true }, lastUsed := 0 }]
      { id := 1, isOpen := true } { id := 99, isOpen := true }).2.2.2.2.1
     [{ socket := { id := 1, isOpen := true }, lastUsed := 0 }]
     { socket := { id := 2, isOpen := true }, lastUsed := 0 } (by decide)⟩

end IxWebSocket
